import Mathlib

/-!
Verification of the PayWiser Yellow Network client
(`src/backend/src/services/yellowNetworkService.js`).

The service is a request-correlated asynchronous WebSocket client.  We give a
shallow embedding of its bookkeeping state (the id-keyed `requestMap`, the
`pendingByMethod` fallback list, the `appSessions` registry, and the
connection / authentication flags) and of the operations the specification
talks about: `resolvePendingRequest`, `sendRequest`, the timeout callback
armed by `sendRequest`, `disconnect`, `authenticate` / `handleAuthChallenge`,
`getChannels`, `getLedgerBalances`, `createBiometricPaymentSession` and
`processBiometricPayment`.

JavaScript `Map` objects are modelled as insertion-ordered association lists,
JS numbers occurring here (timestamps, request ids) as `Nat`, and the JS
`String(n)` decimal conversion as `jsNumberToString`.  Promise settlement is
modelled by an explicit `Settle` outcome naming the request that resolved or
rejected and with what.
-/

namespace PayWiser

/-! ### Decimal rendering of JS numbers

`String(n)` for a non-negative integer JS number renders the usual decimal
digits.  `digitsRev` computes the digits, least significant first, with a
structural fuel so that everything reduces definitionally. -/

/-- Value of a least-significant-first digit list. -/
def ofRevDigits : List Nat → Nat
  | [] => 0
  | d :: ds => d + 10 * ofRevDigits ds

/-- Digits of `n`, least significant first, with explicit fuel. -/
def digitsRevAux : Nat → Nat → List Nat
  | 0, _ => []
  | _ + 1, 0 => []
  | fuel + 1, n + 1 => (n + 1) % 10 :: digitsRevAux fuel ((n + 1) / 10)

/-- Digits of `n`, least significant first (`n` itself is enough fuel). -/
def digitsRev (n : Nat) : List Nat := digitsRevAux n n

/-- Character for one decimal digit. -/
def digChar (d : Nat) : Char := Char.ofNat (48 + d)

/-- Model of the JavaScript `String(n)` conversion for a non-negative
integer number `n`: most-significant-first decimal digits, with `"0"` for
zero. -/
def jsNumberToString (n : Nat) : String :=
  if n = 0 then "0" else String.mk (((digitsRev n).reverse).map digChar)

/-- Read a most-significant-first character string back to a number
(left inverse used only to prove injectivity of `jsNumberToString`). -/
def decodeRevChars : List Char → Nat
  | [] => 0
  | c :: cs => (c.toNat - 48) + 10 * decodeRevChars cs

def decodeDecimal (s : String) : Nat := decodeRevChars s.data.reverse

/-! ### Association-list model of JavaScript `Map` -/

/-- `Map.has` on an insertion-ordered association list. -/
def mapHas {α β : Type} [BEq α] : List (α × β) → α → Bool
  | [], _ => false
  | kv :: rest, k => kv.fst == k || mapHas rest k

/-- `Map.get` on an insertion-ordered association list. -/
def mapGet {α β : Type} [BEq α] : List (α × β) → α → Option β
  | [], _ => none
  | kv :: rest, k => if kv.fst == k then some kv.snd else mapGet rest k

/-- `Map.delete` on an insertion-ordered association list. -/
def mapDelete {α β : Type} [BEq α] : List (α × β) → α → List (α × β)
  | [], _ => []
  | kv :: rest, k =>
      if kv.fst == k then mapDelete rest k else kv :: mapDelete rest k

/-- Overwrite the value stored under an existing key, keeping its slot. -/
def replaceEntry {α β : Type} [BEq α] : List (α × β) → α → β → List (α × β)
  | [], _, _ => []
  | kv :: rest, k, v =>
      if kv.fst == k then (k, v) :: rest else kv :: replaceEntry rest k v

/-- `Map.set` on an insertion-ordered association list: overwrite in place
when the key exists, append otherwise. -/
def mapSet {α β : Type} [BEq α] (m : List (α × β)) (k : α) (v : β) :
    List (α × β) :=
  if mapHas m k then replaceEntry m k v else m ++ [(k, v)]

/-! ### Data model

Shallow embedding of the mutable instance state of `YellowNetworkService`
and of the message shapes the claims mention. -/

/-- The record stored in `requestMap` by `sendRequest` (the resolve/reject
continuations are represented by the request id that owns them; only the
`expectedMethod` field carries data). -/
structure Handler where
  expectedMethod : String
  deriving Repr, DecidableEq

/-- An entry of the `pendingByMethod` fallback list pushed by `sendRequest`:
the normalized expected method together with the request id. -/
structure PendingEntry where
  method : String
  requestId : Nat
  deriving Repr, DecidableEq

/-- A record of the `appSessions` registry. -/
structure Session where
  sessionId : String
  customerAddress : String
  merchantAddress : String
  amount : String
  status : String
  createdAt : Nat
  completedAt : Option Nat
  biometricHash : Option String
  deriving Repr, DecidableEq

/-- An inbound message as far as `resolvePendingRequest` inspects it.
`paramsMethod` stands for `message.params.method`; `req` and `res` stand
for the JSON-RPC array framings whose first element is the request id.
Absent (`undefined`/`null`) fields are `none`. -/
structure Message where
  requestId : Option Nat
  reqId : Option Nat
  req_id : Option Nat
  req : Option (List Nat)
  res : Option (List Nat)
  id : Option Nat
  method : Option String
  paramsMethod : Option String
  name : Option String
  deriving Repr, DecidableEq

/-- Mutable service state: socket handle (`wsPresent` models `this.ws !==
null`, `wsOpen` models `readyState === OPEN`), the three flags, the session
key address and stored expire timestamp, and the three bookkeeping
structures. -/
structure ServiceState where
  wsPresent : Bool
  wsOpen : Bool
  isConnected : Bool
  isAuthenticated : Bool
  isAuthAttempted : Bool
  sessionKey : Option String
  sessionExpireTimestamp : Option String
  requestMap : List (Nat × Handler)
  pendingByMethod : List PendingEntry
  appSessions : List (String × Session)
  deriving Repr, DecidableEq

/-- Immutable configuration read from the environment and the wallet. -/
structure Config where
  walletAddress : String
  appName : String
  authScope : String
  applicationAddress : Option String
  deriving Repr, DecidableEq

/-- Observable settlement of the promise belonging to one request. -/
inductive Settle where
  | resolved (requestId : Nat) (msg : Message)
  | rejectedReq (requestId : Nat) (err : String)
  deriving Repr, DecidableEq

/-- Outcome of `sendRequest` before any response arrives. -/
inductive SendOutcome where
  | rejected (err : String)
  | sent
  deriving Repr, DecidableEq

/-! ### Request correlator -/

/-- ASCII lowercasing of one character, as `toLowerCase` acts on the
ASCII method names exchanged here. -/
def lowerChar (c : Char) : Char :=
  if 'A' ≤ c ∧ c ≤ 'Z' then Char.ofNat (c.toNat + 32) else c

/-- `String(m || '').toLowerCase().replace()` keeping only the letters a-z,
as in the two `normalizeMethod` closures of the source. -/
def normalizeMethod (s : String) : String :=
  String.mk ((s.data.map lowerChar).filter (fun c => decide ('a' ≤ c) && decide (c ≤ 'z')))

/-- The request-id inference chain of `resolvePendingRequest`:
`requestId ?? reqId ?? req_id ?? req[0] ?? res[0] ?? id`. -/
def inferRequestId (m : Message) : Option Nat :=
  m.requestId <|> m.reqId <|> m.req_id <|>
    (m.req.bind List.head?) <|> (m.res.bind List.head?) <|> m.id

/-- JS truthiness of the inferred id (`0` and `undefined` are falsy). -/
def idTruthy : Option Nat → Bool
  | some n => n != 0
  | none => false

/-- JS `a || b` on possibly-absent strings (empty string is falsy). -/
def jsOrStr : Option String → Option String → Option String
  | some s, b => if s == "" then b else some s
  | none, b => b

/-- `normalizeMethod(message?.method || message?.params?.method ||
message?.name)` from `resolvePendingRequest`. -/
def responseMethodOf (m : Message) : String :=
  normalizeMethod ((jsOrStr (jsOrStr m.method m.paramsMethod) m.name).getD "")

/-- `findIndex` + `splice(index, 1)` over the fallback list: locate the
first entry with the given normalized method and return it with the
remaining list. -/
def findByMethod : List PendingEntry → String → Option (PendingEntry × List PendingEntry)
  | [], _ => none
  | p :: rest, meth =>
      if p.method == meth then some (p, rest)
      else
        match findByMethod rest meth with
        | some (q, rest2) => some (q, p :: rest2)
        | none => none

/-- `resolvePendingRequest(message)`: tier 1 resolves by inferred request id
out of `requestMap` (and deletes only the `requestMap` entry); tier 2
resolves the first `pendingByMethod` entry whose normalized method matches;
tier 3 resolves the single remaining `pendingByMethod` entry; otherwise the
function returns `false` and nothing settles. -/
def resolvePendingRequest (s : ServiceState) (m : Message) :
    ServiceState × Option Settle × Bool :=
  let rid := inferRequestId m
  if idTruthy rid && mapHas s.requestMap (rid.getD 0) then
    ({ s with requestMap := mapDelete s.requestMap (rid.getD 0) },
     some (Settle.resolved (rid.getD 0) m), true)
  else
    let responseMethod := responseMethodOf m
    match (if responseMethod != "" && !s.pendingByMethod.isEmpty then
            findByMethod s.pendingByMethod responseMethod
          else none) with
    | some (p, rest) =>
        ({ s with pendingByMethod := rest },
         some (Settle.resolved p.requestId m), true)
    | none =>
        match s.pendingByMethod with
        | [p] =>
            ({ s with pendingByMethod := [] },
             some (Settle.resolved p.requestId m), true)
        | _ => (s, none, false)

/-- `sendRequest(message, expectedMethod, timeout)` up to the `ws.send`
call: reject immediately when the socket is absent or not open; otherwise
register the handler under the outbound message's `req[0]` id, push the
fallback entry, and send.  The request id is the `req[0]` value parsed out
of the outbound message. -/
def sendRequest (s : ServiceState) (requestId : Nat) (expectedMethod : String) :
    ServiceState × SendOutcome :=
  if !(s.wsPresent && s.wsOpen) then
    (s, SendOutcome.rejected "WebSocket not connected")
  else
    ({ s with
        requestMap := mapSet s.requestMap requestId { expectedMethod := expectedMethod },
        pendingByMethod := s.pendingByMethod ++
          [{ method := normalizeMethod expectedMethod, requestId := requestId }] },
     SendOutcome.sent)

/-- The timeout callback armed by `sendRequest` for one request: delete the
`requestMap` entry, splice out the `pendingByMethod` entry with the same
normalized method and id, and reject with a descriptive error. -/
def fireTimeout (s : ServiceState) (requestId : Nat) (expectedMethod : String) :
    ServiceState × Settle :=
  let s1 := { s with requestMap := mapDelete s.requestMap requestId }
  let methodKey := normalizeMethod expectedMethod
  let erased :=
    s1.pendingByMethod.eraseP
      (fun p => p.method == methodKey && p.requestId == requestId)
  let s2 :=
    if !s1.pendingByMethod.isEmpty then { s1 with pendingByMethod := erased }
    else s1
  (s2, Settle.rejectedReq requestId ("Request timeout for " ++ expectedMethod))

/-- `disconnect()`: when a socket exists, reject every pending handler with
a connection-closed error and delete it, then close and drop the socket;
in all cases clear the connection/auth flags and the session registry. -/
def disconnect (s : ServiceState) : ServiceState × List Settle :=
  let base :=
    if s.wsPresent then
      (({ s with wsPresent := false, wsOpen := false, requestMap := [] } : ServiceState),
       s.requestMap.map (fun kv => Settle.rejectedReq kv.fst "Connection closed"))
    else (s, ([] : List Settle))
  ({ base.fst with
      isConnected := false, isAuthenticated := false, isAuthAttempted := false,
      appSessions := [] },
   base.snd)

/-! ### Authentication handshake -/

/-- `this.sessionDuration` (one hour, in seconds). -/
def sessionDuration : Nat := 3600

/-- `String(Math.floor(Date.now() / 1000) + this.sessionDuration)`. -/
def expireOf (nowMs : Nat) : String := jsNumberToString (nowMs / 1000 + sessionDuration)

/-- `this.applicationAddress || this.wallet.address`. -/
def appAddress (cfg : Config) : String :=
  match cfg.applicationAddress with
  | some a => if a == "" then cfg.walletAddress else a
  | none => cfg.walletAddress

/-- Parameters of the initial `auth_request` message. The `allowances`
field is the constant empty array and is omitted. -/
structure AuthRequestParams where
  address : String
  session_key : String
  app_name : String
  expire : String
  scope : String
  application : String
  deriving Repr, DecidableEq

/-- Typed fields of the EIP-712 payload signed in `handleAuthChallenge`
(again without the constant empty `allowances`). -/
structure EIP712AuthParams where
  scope : String
  application : String
  participant : String
  expire : String
  deriving Repr, DecidableEq

/-- JS truthiness check of an optional string (`undefined` and `""` falsy). -/
def isFalsyStr : Option String → Bool
  | none => true
  | some s => s == ""

/-- `authenticate()`: skip when an attempt is already in flight; otherwise
set the attempted guard, generate and store the expire timestamp for this
attempt, and emit the auth-request parameters.  The session key address is
always present after construction; `getD` is never reached. -/
def authenticate (cfg : Config) (s : ServiceState) (nowMs : Nat) :
    ServiceState × Option AuthRequestParams :=
  if s.isAuthAttempted then (s, none)
  else
    let expire := expireOf nowMs
    ({ s with isAuthAttempted := true, sessionExpireTimestamp := some expire },
     some { address := cfg.walletAddress,
            session_key := s.sessionKey.getD "",
            app_name := cfg.appName,
            expire := expire,
            scope := cfg.authScope,
            application := appAddress cfg })

/-- `handleAuthChallenge(challenge)`: fail when the session key or the
stored expire timestamp is missing; otherwise build the EIP-712 auth
parameters, reusing the stored expire timestamp verbatim. -/
def handleAuthChallenge (cfg : Config) (s : ServiceState) :
    Except String EIP712AuthParams :=
  if isFalsyStr s.sessionKey || isFalsyStr s.sessionExpireTimestamp then
    Except.error "Session key or expire timestamp not available"
  else
    Except.ok { scope := cfg.authScope,
                application := appAddress cfg,
                participant := s.sessionKey.getD "",
                expire := s.sessionExpireTimestamp.getD "" }

/-! ### Authenticated queries and the session registry -/

/-- `getChannels()`: authentication guard, then a correlated request with
expected method name `get_channels`. -/
def getChannels (s : ServiceState) (requestId : Nat) :
    ServiceState × Except String SendOutcome :=
  if !s.isAuthenticated then
    (s, Except.error "Not authenticated with Yellow Network")
  else
    let r := sendRequest s requestId "get_channels"
    (r.fst, Except.ok r.snd)

/-- `getLedgerBalances()`: authentication guard, then a correlated request
with expected method name `get_ledger_balances`. -/
def getLedgerBalances (s : ServiceState) (requestId : Nat) :
    ServiceState × Except String SendOutcome :=
  if !s.isAuthenticated then
    (s, Except.error "Not authenticated with Yellow Network")
  else
    let r := sendRequest s requestId "get_ledger_balances"
    (r.fst, Except.ok r.snd)

/-- One per-participant allocation line of a session message. -/
structure Allocation where
  participant : String
  asset : String
  amount : String
  deriving Repr, DecidableEq

/-- The `appDefinition` object of `createBiometricPaymentSession`. -/
structure AppDefinition where
  protocol : String
  participants : List String
  weights : List Nat
  quorum : Nat
  challenge : Nat
  nonce : Nat
  deriving Repr, DecidableEq

/-- Payload of the session-open request (`createAppSessionMessage`). -/
structure OpenSessionPayload where
  definition : AppDefinition
  allocations : List Allocation
  deriving Repr, DecidableEq

/-- Payload of the session-close request (`createCloseAppSessionMessage`). -/
structure ClosePayload where
  app_session_id : String
  allocations : List Allocation
  deriving Repr, DecidableEq

/-- The fields of the awaited response that
`createBiometricPaymentSession` probes: `method`, truthiness of `params`
and `params.balanceUpdates`, and `params[0].app_session_id` when present. -/
structure CreateResponse where
  method : Option String
  hasParams : Bool
  hasBalanceUpdates : Bool
  firstAppSessionId : Option String
  deriving Repr, DecidableEq

/-- Value returned to the caller on success. -/
structure CreateResult where
  sessionId : String
  status : String
  deriving Repr, DecidableEq

/-- `createBiometricPaymentSession(customer, merchant, amount)`.  The
awaited server response is passed in as `response`; `now` stands for the
`Date.now()` readings of this call and `randSuffix` for the random part of
a locally synthesized session id.  Output: the new state, the result or
thrown error, and the open payload when the request was sent. -/
def createBiometricPaymentSession (cfg : Config) (s : ServiceState)
    (customerAddress merchantAddress amount : String)
    (response : CreateResponse) (now : Nat) (randSuffix : String) :
    ServiceState × Except String CreateResult × Option OpenSessionPayload :=
  if !s.isAuthenticated then
    (s, Except.error "Not authenticated with Yellow Network", none)
  else
    let appDefinition : AppDefinition :=
      { protocol := "paywiser_biometric_v1",
        participants := [customerAddress, merchantAddress, cfg.walletAddress],
        weights := [0, 0, 100], quorum := 100, challenge := 0, nonce := now }
    let allocations : List Allocation :=
      [ { participant := customerAddress, asset := "usdc", amount := amount },
        { participant := merchantAddress, asset := "usdc", amount := "0" },
        { participant := cfg.walletAddress, asset := "usdc", amount := "0" } ]
    let payload : OpenSessionPayload :=
      { definition := appDefinition, allocations := allocations }
    if response.method == some "bu" && response.hasParams && response.hasBalanceUpdates then
      let sessionId := "session_" ++ jsNumberToString now ++ "_" ++ randSuffix
      let sess : Session :=
        { sessionId := sessionId, customerAddress := customerAddress,
          merchantAddress := merchantAddress, amount := amount,
          status := "open", createdAt := now,
          completedAt := none, biometricHash := none }
      ({ s with appSessions := mapSet s.appSessions sessionId sess },
       Except.ok { sessionId := sessionId, status := "open" }, some payload)
    else
      match response.firstAppSessionId with
      | some sid =>
          if sid == "" then
            (s, Except.error "Failed to create application session", some payload)
          else
            let sess : Session :=
              { sessionId := sid, customerAddress := customerAddress,
                merchantAddress := merchantAddress, amount := amount,
                status := "open", createdAt := now,
                completedAt := none, biometricHash := none }
            ({ s with appSessions := mapSet s.appSessions sid sess },
             Except.ok { sessionId := sid, status := "open" }, some payload)
      | none =>
          (s, Except.error "Failed to create application session", some payload)

/-- `processBiometricPayment(sessionId, biometricHash, merchantName)` up to
the settlement bookkeeping: look the session up (throwing when absent),
send the close payload with the reversed allocations, then mark the
session completed and stamp the completion time. -/
def processBiometricPayment (cfg : Config) (s : ServiceState)
    (sessionId biometricHash : String) (now : Nat) :
    ServiceState × Except String Unit × Option ClosePayload :=
  match mapGet s.appSessions sessionId with
  | none => (s, Except.error "Application session not found", none)
  | some session =>
      let finalAllocations : List Allocation :=
        [ { participant := session.customerAddress, asset := "usdc", amount := "0" },
          { participant := session.merchantAddress, asset := "usdc",
            amount := session.amount },
          { participant := cfg.walletAddress, asset := "usdc", amount := "0" } ]
      let session2 : Session :=
        { session with
            status := "completed"
            completedAt := some now
            biometricHash := some biometricHash }
      ({ s with appSessions := mapSet s.appSessions sessionId session2 },
       Except.ok (),
       some { app_session_id := sessionId, allocations := finalAllocations })

/-! ### Concrete fixtures -/

/-- A message with every optional field absent. -/
def blankMessage : Message :=
  { requestId := none, reqId := none, req_id := none, req := none,
    res := none, id := none, method := none, paramsMethod := none,
    name := none }

/-- A response that echoes a request id in the `requestId` field. -/
def msgWithId (rid : Nat) : Message := { blankMessage with requestId := some rid }

/-- A response carrying only a method name. -/
def msgWithMethod (meth : String) : Message := { blankMessage with method := some meth }

/-- A connected, authenticated state with no pending requests or sessions. -/
def connState : ServiceState :=
  { wsPresent := true, wsOpen := true, isConnected := true,
    isAuthenticated := true, isAuthAttempted := true,
    sessionKey := some "0xSessionKey",
    sessionExpireTimestamp := some "1700003600",
    requestMap := [], pendingByMethod := [], appSessions := [] }

/-- A connected state in which no handshake has been attempted yet. -/
def authState : ServiceState := { connState with isAuthAttempted := false }

/-- A sample configuration. -/
def cfg0 : Config :=
  { walletAddress := "0xWallet", appName := "PayWiser",
    authScope := "paywiser.com", applicationAddress := none }

/-- A connected state whose socket is no longer open. -/
def halfClosedState : ServiceState := { connState with wsOpen := false }

/-- A connected state that never authenticated. -/
def unauthState : ServiceState := { connState with isAuthenticated := false }

/-- The state reached by sending requests 5 and 7 and then receiving the
response that echoes id 7: request 5 is the only one still pending, but
the fallback list still holds two entries. -/
def c2state : ServiceState :=
  (resolvePendingRequest
    (sendRequest (sendRequest connState 5 "get_channels").fst 7
      "get_ledger_balances").fst
    (msgWithId 7)).fst

/-- A state with one pending request registered under id 5 and expected
method `get_channels`. -/
def c2wState : ServiceState :=
  { connState with
      requestMap := [(5, { expectedMethod := "get_channels" })]
      pendingByMethod := [{ method := "getchannels", requestId := 5 }] }

/-- Constructor shorthand for fallback-list entries. -/
def pendEntry (meth : String) (rid : Nat) : PendingEntry :=
  { method := meth, requestId := rid }

/-- Constructor shorthand for `requestMap` records. -/
def mkHandler (meth : String) : Handler := { expectedMethod := meth }

/-- Replace the session registry of a state. -/
def withSessions (s : ServiceState) (l : List (String × Session)) :
    ServiceState :=
  { s with appSessions := l }

/-- The session record registered by a successful `create` call. -/
def openRecord (sid customer merchant amount : String) (tc : Nat) : Session :=
  { sessionId := sid, customerAddress := customer, merchantAddress := merchant,
    amount := amount, status := "open", createdAt := tc,
    completedAt := none, biometricHash := none }

/-- The same record after a successful close. -/
def completedRecord (sid customer merchant amount bio : String)
    (tc tp : Nat) : Session :=
  { sessionId := sid, customerAddress := customer, merchantAddress := merchant,
    amount := amount, status := "completed", createdAt := tc,
    completedAt := some tp, biometricHash := some bio }

/-- A server response exposing a session id under `params[0]`. -/
def sidResponse : CreateResponse :=
  { method := none, hasParams := true, hasBalanceUpdates := false,
    firstAppSessionId := some "sess1" }

/-! ### Supporting lemmas -/

theorem ofRevDigits_digitsRevAux :
    ∀ fuel n, n ≤ fuel → ofRevDigits (digitsRevAux fuel n) = n := by
  intro fuel
  induction fuel with
  | zero =>
      intro n h
      have : n = 0 := Nat.le_zero.mp h
      subst this
      rfl
  | succ f ih =>
      intro n h
      cases n with
      | zero => rfl
      | succ m =>
          have hdiv : (m + 1) / 10 ≤ f := by
            have hlt : (m + 1) / 10 < m + 1 :=
              Nat.div_lt_self (Nat.succ_pos m) (by omega)
            omega
          show ofRevDigits ((m + 1) % 10 :: digitsRevAux f ((m + 1) / 10)) = m + 1
          rw [ofRevDigits, ih _ hdiv, Nat.mod_add_div]

theorem ofRevDigits_digitsRev (n : Nat) : ofRevDigits (digitsRev n) = n :=
  ofRevDigits_digitsRevAux n n (Nat.le_refl n)

theorem digitsRevAux_lt_ten :
    ∀ fuel n d, d ∈ digitsRevAux fuel n → d < 10 := by
  intro fuel
  induction fuel with
  | zero => intro n d h; simp [digitsRevAux] at h
  | succ f ih =>
      intro n d h
      cases n with
      | zero => simp [digitsRevAux] at h
      | succ m =>
          simp only [digitsRevAux, List.mem_cons] at h
          rcases h with h | h
          · subst h; exact Nat.mod_lt _ (by omega)
          · exact ih _ _ h

theorem digitsRev_lt_ten (n d : Nat) (h : d ∈ digitsRev n) : d < 10 :=
  digitsRevAux_lt_ten n n d h

theorem digChar_toNat : ∀ d, d < 10 → (digChar d).toNat = 48 + d := by decide

theorem decodeRevChars_map_digChar :
    ∀ l : List Nat, (∀ d ∈ l, d < 10) →
      decodeRevChars (l.map digChar) = ofRevDigits l := by
  intro l
  induction l with
  | nil => intro _; rfl
  | cons d ds ih =>
      intro h
      have hd : d < 10 := h d (List.mem_cons_self d ds)
      have hds : ∀ x ∈ ds, x < 10 := fun x hx => h x (List.mem_cons_of_mem d hx)
      simp only [List.map, decodeRevChars, ofRevDigits, ih hds,
        digChar_toNat d hd]
      omega

theorem decodeDecimal_jsNumberToString (n : Nat) :
    decodeDecimal (jsNumberToString n) = n := by
  by_cases h : n = 0
  · subst h; rfl
  · simp only [jsNumberToString, if_neg h, decodeDecimal]
    show decodeRevChars (((digitsRev n).reverse.map digChar)).reverse = n
    rw [List.map_reverse, List.reverse_reverse,
      decodeRevChars_map_digChar _ (fun d hd => digitsRev_lt_ten n d hd),
      ofRevDigits_digitsRev]

theorem jsNumberToString_inj {a b : Nat}
    (h : jsNumberToString a = jsNumberToString b) : a = b := by
  have ha := decodeDecimal_jsNumberToString a
  have hb := decodeDecimal_jsNumberToString b
  rw [← ha, ← hb, h]

theorem jsNumberToString_ne_empty (n : Nat) : jsNumberToString n ≠ "" := by
  intro h
  have hn := decodeDecimal_jsNumberToString n
  rw [h] at hn
  have h0 : decodeDecimal "" = 0 := rfl
  rw [h0] at hn
  subst hn
  exact absurd h (by decide)

theorem mapGet_replaceEntry_self {α β : Type} [BEq α] [LawfulBEq α]
    (m : List (α × β)) (k : α) (v : β) (h : mapHas m k = true) :
    mapGet (replaceEntry m k v) k = some v := by
  induction m with
  | nil => simp [mapHas] at h
  | cons kv rest ih =>
      cases hkv : (kv.fst == k) with
      | true => simp [replaceEntry, hkv, mapGet]
      | false =>
          have hrest : mapHas rest k = true := by
            simpa [mapHas, hkv] using h
          simp [replaceEntry, hkv, mapGet, ih hrest]

theorem mapGet_append_single_self {α β : Type} [BEq α] [LawfulBEq α]
    (m : List (α × β)) (k : α) (v : β) (h : mapHas m k = false) :
    mapGet (m ++ [(k, v)]) k = some v := by
  induction m with
  | nil => simp [mapGet]
  | cons kv rest ih =>
      simp only [mapHas, Bool.or_eq_false_iff] at h
      simp only [List.cons_append, mapGet]
      rw [if_neg (by simp_all)]
      exact ih h.2

theorem mapGet_mapSet_self {α β : Type} [BEq α] [LawfulBEq α]
    (m : List (α × β)) (k : α) (v : β) : mapGet (mapSet m k v) k = some v := by
  unfold mapSet
  by_cases h : mapHas m k = true
  · rw [if_pos h]; exact mapGet_replaceEntry_self m k v h
  · rw [if_neg h]
    exact mapGet_append_single_self m k v (by simpa using h)

theorem mapGet_replaceEntry_ne {α β : Type} [BEq α] [LawfulBEq α]
    (m : List (α × β)) (k k2 : α) (v : β) (h : (k2 == k) = false) :
    mapGet (replaceEntry m k v) k2 = mapGet m k2 := by
  have hne : k2 ≠ k := by simpa using h
  induction m with
  | nil => rfl
  | cons kv rest ih =>
      cases hkv : (kv.fst == k) with
      | true =>
          have hfst : kv.fst = k := by simpa using hkv
          have hk2 : (k == k2) = false := by simp [Ne.symm hne]
          simp [replaceEntry, hkv, mapGet, hk2, hfst]
      | false =>
          cases h2 : (kv.fst == k2) with
          | true => simp [replaceEntry, hkv, mapGet, h2]
          | false => simp [replaceEntry, hkv, mapGet, h2, ih]

theorem mapGet_append_single_ne {α β : Type} [BEq α] [LawfulBEq α]
    (m : List (α × β)) (k k2 : α) (v : β) (h : (k2 == k) = false) :
    mapGet (m ++ [(k, v)]) k2 = mapGet m k2 := by
  have hne : k2 ≠ k := by simpa using h
  induction m with
  | nil =>
      simp only [List.nil_append, mapGet]
      rw [if_neg (by simp [hne.symm])]
  | cons kv rest ih =>
      simp only [List.cons_append, mapGet]
      by_cases h2 : (kv.fst == k2) = true
      · rw [if_pos h2, if_pos h2]
      · rw [if_neg (by simp_all), if_neg (by simp_all)]
        exact ih

theorem mapGet_mapSet_ne {α β : Type} [BEq α] [LawfulBEq α]
    (m : List (α × β)) (k k2 : α) (v : β) (h : (k2 == k) = false) :
    mapGet (mapSet m k v) k2 = mapGet m k2 := by
  unfold mapSet
  by_cases hh : mapHas m k = true
  · rw [if_pos hh]; exact mapGet_replaceEntry_ne m k k2 v h
  · rw [if_neg hh]; exact mapGet_append_single_ne m k k2 v h

theorem mapHas_of_mapGet_some {α β : Type} [BEq α]
    (m : List (α × β)) (k : α) (v : β) (h : mapGet m k = some v) :
    mapHas m k = true := by
  induction m with
  | nil => simp [mapGet] at h
  | cons kv rest ih =>
      cases hkv : (kv.fst == k) with
      | true => simp [mapHas, hkv]
      | false =>
          simp only [mapGet, hkv, Bool.false_eq_true, if_false] at h
          simp [mapHas, hkv, ih h]

example : normalizeMethod "get_channels" = "getchannels" := by decide

example : inferRequestId (msgWithId 5) = some 5 := by decide

example :
    (sendRequest connState 5 "get_channels").fst.requestMap
      = [(5, { expectedMethod := "get_channels" })] := by decide

example :
    (sendRequest connState 5 "get_channels").fst.pendingByMethod
      = [{ method := "getchannels", requestId := 5 }] := by decide

/-! ### Claim theorems -/

/-- C8: whenever the socket is absent or not in the OPEN state,
`sendRequest` rejects immediately with a `WebSocket not connected` error
and leaves the state - in particular `requestMap` and `pendingByMethod` -
unchanged, sending nothing. -/
theorem C8_send_without_open_socket (s : ServiceState) (requestId : Nat)
    (expectedMethod : String) (h : s.wsPresent = false ∨ s.wsOpen = false) :
    sendRequest s requestId expectedMethod
      = (s, SendOutcome.rejected "WebSocket not connected") := by
  unfold sendRequest
  rcases h with h | h <;> simp [h]

theorem C8_send_without_open_socket_witness :
    sendRequest halfClosedState 5 "get_channels"
      = (halfClosedState, SendOutcome.rejected "WebSocket not connected") :=
  C8_send_without_open_socket halfClosedState 5 "get_channels" (Or.inr rfl)

/-- C9: for a session id absent from the registry,
`processBiometricPayment` throws `Application session not found`, sends no
close request, and leaves the state unchanged. -/
theorem C9_close_unknown_session (cfg : Config) (s : ServiceState)
    (sessionId biometricHash : String) (now : Nat)
    (h : mapGet s.appSessions sessionId = none) :
    processBiometricPayment cfg s sessionId biometricHash now
      = (s, Except.error "Application session not found", none) := by
  unfold processBiometricPayment
  rw [h]

theorem C9_close_unknown_session_witness :
    processBiometricPayment cfg0 connState "nosuch" "hash1" 7
      = (connState, Except.error "Application session not found", none) :=
  C9_close_unknown_session cfg0 connState "nosuch" "hash1" 7 rfl

/-- C10: whenever the `authenticated` flag is false, `getChannels`,
`getLedgerBalances` and `createBiometricPaymentSession` each throw
`Not authenticated with Yellow Network` without sending anything,
registering a pending request, or creating a session. -/
theorem C10_authentication_guard (cfg : Config) (s : ServiceState)
    (rid1 rid2 : Nat) (customer merchant amount randSuffix : String)
    (response : CreateResponse) (now : Nat)
    (h : s.isAuthenticated = false) :
    getChannels s rid1 = (s, Except.error "Not authenticated with Yellow Network")
  ∧ getLedgerBalances s rid2 = (s, Except.error "Not authenticated with Yellow Network")
  ∧ createBiometricPaymentSession cfg s customer merchant amount response now randSuffix
      = (s, Except.error "Not authenticated with Yellow Network", none) := by
  unfold getChannels getLedgerBalances createBiometricPaymentSession
  simp [h]

theorem C10_authentication_guard_witness :
    getChannels unauthState 1
        = (unauthState, Except.error "Not authenticated with Yellow Network")
  ∧ getLedgerBalances unauthState 2
        = (unauthState, Except.error "Not authenticated with Yellow Network")
  ∧ createBiometricPaymentSession cfg0 unauthState "0xA" "0xB" "10"
        { method := none, hasParams := false, hasBalanceUpdates := false,
          firstAppSessionId := none } 7 "r1"
      = (unauthState, Except.error "Not authenticated with Yellow Network", none) :=
  C10_authentication_guard cfg0 unauthState 1 2 "0xA" "0xB" "10" "r1"
    { method := none, hasParams := false, hasBalanceUpdates := false,
      firstAppSessionId := none } 7 rfl

/-- C1 counterexample: one request (id 5) is sent while nothing else is
outstanding, and the response echoing id 5 arrives.  The promise resolves
with that message and the `requestMap` entry is deleted, but the
`pendingByMethod` record is NOT removed - the claim's assertion that the
pending record is purged from both bookkeeping structures is false. -/
theorem C1_counterexample :
    (resolvePendingRequest (sendRequest connState 5 "get_channels").fst
        (msgWithId 5)).snd.fst = some (Settle.resolved 5 (msgWithId 5))
  ∧ (resolvePendingRequest (sendRequest connState 5 "get_channels").fst
        (msgWithId 5)).fst.requestMap = []
  ∧ (resolvePendingRequest (sendRequest connState 5 "get_channels").fst
        (msgWithId 5)).fst.pendingByMethod
      = [{ method := "getchannels", requestId := 5 }] :=
  ⟨by decide, by decide, by decide⟩

/-- C1 amended: with a single outstanding request under a nonzero
correlation id, a response whose inferred id matches resolves the promise
with exactly that message and empties the id-keyed `requestMap`, but the
`pendingByMethod` fallback entry is left in place. -/
theorem C1_single_request_correlation (s : ServiceState) (rid : Nat)
    (h : Handler) (m : Message) (hmap : s.requestMap = [(rid, h)])
    (hrid : inferRequestId m = some rid) (hnz : rid ≠ 0) :
    resolvePendingRequest s m
      = ({ s with requestMap := [] }, some (Settle.resolved rid m), true) := by
  unfold resolvePendingRequest
  simp [hrid, hmap, idTruthy, mapHas, mapDelete, hnz]

theorem C1_single_request_correlation_witness :
    resolvePendingRequest (sendRequest connState 5 "get_channels").fst (msgWithId 5)
      = ({ (sendRequest connState 5 "get_channels").fst with requestMap := [] },
         some (Settle.resolved 5 (msgWithId 5)), true) :=
  C1_single_request_correlation (sendRequest connState 5 "get_channels").fst 5
    { expectedMethod := "get_channels" } (msgWithId 5) (by decide) (by decide)
    (by decide)

/-- C3: with a socket present, `disconnect` rejects every pending request
with a `Connection closed` error (one rejection per entry), empties the
pending-request map, drops the socket, clears the session registry and
resets the connected/authenticated/authAttempted flags. -/
theorem C3_disconnect_clears_all (s : ServiceState) (hws : s.wsPresent = true) :
    disconnect s
      = ({ s with
            wsPresent := false
            wsOpen := false
            isConnected := false
            isAuthenticated := false
            isAuthAttempted := false
            requestMap := []
            appSessions := [] },
         s.requestMap.map (fun kv => Settle.rejectedReq kv.fst "Connection closed"))
  ∧ (disconnect s).snd.length = s.requestMap.length := by
  constructor
  · unfold disconnect
    simp [hws]
  · unfold disconnect
    simp [hws]

theorem C3_disconnect_clears_all_witness :
    disconnect (sendRequest (sendRequest connState 11 "get_channels").fst 12
        "get_ledger_balances").fst
      = ({ (sendRequest (sendRequest connState 11 "get_channels").fst 12
              "get_ledger_balances").fst with
            wsPresent := false
            wsOpen := false
            isConnected := false
            isAuthenticated := false
            isAuthAttempted := false
            requestMap := []
            appSessions := [] },
         [Settle.rejectedReq 11 "Connection closed",
          Settle.rejectedReq 12 "Connection closed"]) := by
  have h := C3_disconnect_clears_all (sendRequest (sendRequest connState 11
    "get_channels").fst 12 "get_ledger_balances").fst (by decide)
  rw [h.1]
  decide

/-- C5: within one handshake attempt the expire value of the initial auth
request equals the expire value embedded in the EIP-712 verification
payload, and a second attempt (after the attempted-guard reset) derives
its expire value freshly from its own clock reading, so attempts at
different clock seconds carry distinct expire values. -/
theorem C5_handshake_nonce_binding (cfg : Config) (s : ServiceState)
    (t1 t2 : Nat) (hatt : s.isAuthAttempted = false)
    (hsk : isFalsyStr s.sessionKey = false) :
    ((authenticate cfg s t1).snd.map AuthRequestParams.expire
        = some (expireOf t1))
  ∧ ((handleAuthChallenge cfg (authenticate cfg s t1).fst).map
        EIP712AuthParams.expire = Except.ok (expireOf t1))
  ∧ ((authenticate cfg
        { (authenticate cfg s t1).fst with isAuthAttempted := false }
        t2).snd.map AuthRequestParams.expire = some (expireOf t2))
  ∧ (t1 / 1000 ≠ t2 / 1000 → expireOf t1 ≠ expireOf t2) := by
  refine ⟨?_, ?_, ?_, ?_⟩
  · unfold authenticate
    simp [hatt]
  · unfold authenticate handleAuthChallenge
    have hne : (expireOf t1 == "") = false := by
      have := jsNumberToString_ne_empty (t1 / 1000 + sessionDuration)
      simpa [expireOf] using this
    simp [hatt, isFalsyStr] at hsk ⊢
    cases hks : s.sessionKey with
    | none => rw [hks] at hsk; simp at hsk
    | some k =>
        rw [hks] at hsk
        simp at hsk
        have hne2 : expireOf t1 ≠ "" := by simpa using hne
        simp [hks, hsk, hne, hne2, Except.map]
  · unfold authenticate
    simp [hatt]
  · intro hne heq
    have := jsNumberToString_inj ((by simpa [expireOf] using heq) :
      jsNumberToString (t1 / 1000 + sessionDuration)
        = jsNumberToString (t2 / 1000 + sessionDuration))
    omega

theorem C5_handshake_nonce_binding_witness :
    ((authenticate cfg0 authState 1000).snd.map AuthRequestParams.expire
        = some (expireOf 1000))
  ∧ ((handleAuthChallenge cfg0 (authenticate cfg0 authState 1000).fst).map
        EIP712AuthParams.expire = Except.ok (expireOf 1000))
  ∧ expireOf 1000 ≠ expireOf 2000 := by
  have h := C5_handshake_nonce_binding cfg0 authState 1000 2000 rfl (by decide)
  exact ⟨h.1, h.2.1, h.2.2.2 (by decide)⟩

/-- If `findByMethod` finds an entry, the list was not empty. -/
theorem findByMethod_ne_nil (l : List PendingEntry) (meth : String)
    (p : PendingEntry) (rest : List PendingEntry)
    (h : findByMethod l meth = some (p, rest)) : l ≠ [] := by
  intro h0
  rw [h0] at h
  simp [findByMethod] at h

/-- C2 counterexample: in `c2state` exactly one request (id 5) is still
pending, yet a response carrying neither an id nor a method resolves
nothing and `resolvePendingRequest` returns false, because the stale
fallback entry of the already-resolved request 7 makes the
`pendingByMethod` list have two entries - the claim's tier 3 as stated
(`exactly one request is currently pending`) is false. -/
theorem C2_counterexample :
    c2state.requestMap.length = 1
  ∧ resolvePendingRequest c2state blankMessage = (c2state, none, false) :=
  ⟨by decide, by decide⟩

/-- C2 amended: the matcher applies tier 1 (nonzero inferred id registered
in `requestMap`), then tier 2 (first fallback entry with the same
normalized method), then tier 3 - which fires when exactly one ENTRY
remains in the `pendingByMethod` fallback list, a count that can differ
from the number of unresolved requests - and otherwise resolves nothing
and returns false. -/
theorem C2_matching_tiers (s : ServiceState) (m : Message) :
    (∀ rid : Nat, inferRequestId m = some rid → rid ≠ 0 →
        mapHas s.requestMap rid = true →
        resolvePendingRequest s m
          = ({ s with requestMap := mapDelete s.requestMap rid },
             some (Settle.resolved rid m), true))
  ∧ ((idTruthy (inferRequestId m) = false
        ∨ mapHas s.requestMap ((inferRequestId m).getD 0) = false) →
      responseMethodOf m ≠ "" →
      ∀ p rest,
        findByMethod s.pendingByMethod (responseMethodOf m) = some (p, rest) →
        resolvePendingRequest s m
          = ({ s with pendingByMethod := rest },
             some (Settle.resolved p.requestId m), true))
  ∧ ((idTruthy (inferRequestId m) = false
        ∨ mapHas s.requestMap ((inferRequestId m).getD 0) = false) →
      (responseMethodOf m = ""
        ∨ findByMethod s.pendingByMethod (responseMethodOf m) = none) →
      ∀ p, s.pendingByMethod = [p] →
        resolvePendingRequest s m
          = ({ s with pendingByMethod := [] },
             some (Settle.resolved p.requestId m), true))
  ∧ ((idTruthy (inferRequestId m) = false
        ∨ mapHas s.requestMap ((inferRequestId m).getD 0) = false) →
      (responseMethodOf m = ""
        ∨ findByMethod s.pendingByMethod (responseMethodOf m) = none) →
      s.pendingByMethod.length ≠ 1 →
      resolvePendingRequest s m = (s, none, false)) := by
  refine ⟨?_, ?_, ?_, ?_⟩
  · intro rid hrid hnz hhas
    unfold resolvePendingRequest
    simp [hrid, idTruthy, hnz, hhas]
  · intro hid hm p rest hfind
    have hcond : (idTruthy (inferRequestId m)
        && mapHas s.requestMap ((inferRequestId m).getD 0)) = false := by
      rcases hid with h | h <;> simp [h]
    have hnonempty := findByMethod_ne_nil _ _ _ _ hfind
    have hie : s.pendingByMethod.isEmpty = false := by
      cases hpb : s.pendingByMethod with
      | nil => exact absurd hpb hnonempty
      | cons a l => rfl
    unfold resolvePendingRequest
    simp only [hcond, Bool.false_eq_true, if_false]
    have hm2 : (responseMethodOf m != "") = true := by simpa using hm
    simp only [hm2, hie, Bool.not_false, Bool.true_and, Bool.and_self,
      if_true, hfind]
  · intro hid hsecond p hpb
    have hcond : (idTruthy (inferRequestId m)
        && mapHas s.requestMap ((inferRequestId m).getD 0)) = false := by
      rcases hid with h | h <;> simp [h]
    unfold resolvePendingRequest
    simp only [hcond, Bool.false_eq_true, if_false, hpb]
    rcases hsecond with h | h
    · simp [h]
    · rw [hpb] at h
      simp [h]
  · intro hid hsecond hlen
    have hcond : (idTruthy (inferRequestId m)
        && mapHas s.requestMap ((inferRequestId m).getD 0)) = false := by
      rcases hid with h | h <;> simp [h]
    unfold resolvePendingRequest
    simp only [hcond, Bool.false_eq_true, if_false]
    have hfall : (if (responseMethodOf m != "") && !s.pendingByMethod.isEmpty
        then findByMethod s.pendingByMethod (responseMethodOf m)
        else none) = none := by
      rcases hsecond with h | h
      · simp [h]
      · by_cases hc : ((responseMethodOf m != "") && !s.pendingByMethod.isEmpty) = true
        · simp [hc, h]
        · simp only [Bool.not_eq_true] at hc
          simp [hc]
    rw [hfall]
    cases hpb : s.pendingByMethod with
    | nil => rfl
    | cons a l =>
        cases l with
        | nil => rw [hpb] at hlen; simp at hlen
        | cons b l2 => rfl

theorem C2_matching_tiers_witness :
    resolvePendingRequest c2wState (msgWithMethod "get_channels")
      = ({ c2wState with pendingByMethod := [] },
         some (Settle.resolved 5 (msgWithMethod "get_channels")), true) :=
  (C2_matching_tiers c2wState (msgWithMethod "get_channels")).2.1
    (Or.inl (by decide)) (by decide)
    { method := "getchannels", requestId := 5 } [] (by decide)

/-- C4: after requests A and B (distinct ids) are sent, firing A's timeout
rejects only A with an error naming A's expected method and purges A's
entries from both bookkeeping structures; B's entries survive and a
response echoing B's id still resolves B normally. -/
theorem C4_timeout_isolation (s0 : ServiceState) (ridA ridB : Nat)
    (methA methB : String) (m : Message)
    (hws : s0.wsPresent = true) (hop : s0.wsOpen = true)
    (hmap : s0.requestMap = []) (hpbm : s0.pendingByMethod = [])
    (hne : ridA ≠ ridB) (hBnz : ridB ≠ 0)
    (hm : inferRequestId m = some ridB) :
    (fireTimeout (sendRequest (sendRequest s0 ridA methA).fst ridB
        methB).fst ridA methA).snd
      = Settle.rejectedReq ridA ("Request timeout for " ++ methA)
  ∧ (fireTimeout (sendRequest (sendRequest s0 ridA methA).fst ridB
        methB).fst ridA methA).fst.requestMap
      = [(ridB, mkHandler methB)]
  ∧ (fireTimeout (sendRequest (sendRequest s0 ridA methA).fst ridB
        methB).fst ridA methA).fst.pendingByMethod
      = [pendEntry (normalizeMethod methB) ridB]
  ∧ resolvePendingRequest (fireTimeout (sendRequest (sendRequest s0 ridA
        methA).fst ridB methB).fst ridA methA).fst m
      = ({ (fireTimeout (sendRequest (sendRequest s0 ridA methA).fst ridB
              methB).fst ridA methA).fst with requestMap := [] },
         some (Settle.resolved ridB m), true) := by
  have hAB : (ridA == ridB) = false := by simp [hne]
  have hBA : (ridB == ridA) = false := by simp [Ne.symm hne]
  have e1 : (sendRequest s0 ridA methA).fst
      = { s0 with
            requestMap := [(ridA, mkHandler methA)]
            pendingByMethod := [pendEntry (normalizeMethod methA) ridA] } := by
    unfold sendRequest
    simp [hws, hop, hmap, hpbm, mapSet, mapHas, mkHandler, pendEntry]
  have e2 : (sendRequest (sendRequest s0 ridA methA).fst ridB methB).fst
      = { s0 with
            requestMap := [(ridA, mkHandler methA), (ridB, mkHandler methB)]
            pendingByMethod := [pendEntry (normalizeMethod methA) ridA,
              pendEntry (normalizeMethod methB) ridB] } := by
    rw [e1]
    unfold sendRequest
    simp [hws, hop, mapSet, mapHas, hAB, mkHandler, pendEntry]
  have e3 : fireTimeout (sendRequest (sendRequest s0 ridA methA).fst ridB
      methB).fst ridA methA
      = ({ s0 with
            requestMap := [(ridB, mkHandler methB)]
            pendingByMethod := [pendEntry (normalizeMethod methB) ridB] },
         Settle.rejectedReq ridA ("Request timeout for " ++ methA)) := by
    rw [e2]
    unfold fireTimeout
    simp [mapDelete, hBA, List.eraseP, pendEntry]
  refine ⟨?_, ?_, ?_, ?_⟩
  · rw [e3]
  · rw [e3]
  · rw [e3]
  · rw [e3]
    unfold resolvePendingRequest
    simp [hm, idTruthy, hBnz, mapHas, mapDelete]

theorem C4_timeout_isolation_witness :
    (fireTimeout (sendRequest (sendRequest connState 1 "get_channels").fst 2
        "get_ledger_balances").fst 1 "get_channels").snd
      = Settle.rejectedReq 1 ("Request timeout for " ++ "get_channels")
  ∧ (resolvePendingRequest (fireTimeout (sendRequest (sendRequest connState 1
        "get_channels").fst 2 "get_ledger_balances").fst 1
        "get_channels").fst (msgWithId 2)).snd.fst
      = some (Settle.resolved 2 (msgWithId 2)) := by
  have h := C4_timeout_isolation connState 1 2 "get_channels"
    "get_ledger_balances" (msgWithId 2) rfl rfl rfl rfl (by decide)
    (by decide) (by decide)
  exact ⟨h.1, by rw [h.2.2.2]⟩

/-- C6: a session created from a server-supplied session id enters the
registry with status `open` and its creation time; a later successful
close rewrites it to status `completed` with a completion time at least
the creation time; and neither operation moves any session already marked
`completed` back to `open` (the close only touches its target, and the
create call registers under a fresh id). -/
theorem C6_session_lifecycle (cfg : Config) (s : ServiceState)
    (customer merchant amount sid bio randSuffix : String)
    (resp : CreateResponse) (tc tp : Nat)
    (hauth : s.isAuthenticated = true)
    (hbu : (resp.method == some "bu" && resp.hasParams
        && resp.hasBalanceUpdates) = false)
    (hsid : resp.firstAppSessionId = some sid)
    (hsne : (sid == "") = false)
    (hfresh : mapHas s.appSessions sid = false)
    (hclock : tc ≤ tp) :
    mapGet (createBiometricPaymentSession cfg s customer merchant amount resp
        tc randSuffix).fst.appSessions sid
      = some (openRecord sid customer merchant amount tc)
  ∧ mapGet (processBiometricPayment cfg (createBiometricPaymentSession cfg s
        customer merchant amount resp tc randSuffix).fst sid bio
        tp).fst.appSessions sid
      = some (completedRecord sid customer merchant amount bio tc tp)
  ∧ tc ≤ tp
  ∧ (∀ sid2 sess2, mapGet s.appSessions sid2 = some sess2 →
      sess2.status = "completed" →
      mapGet (processBiometricPayment cfg (createBiometricPaymentSession cfg
          s customer merchant amount resp tc randSuffix).fst sid bio
          tp).fst.appSessions sid2
        = some sess2) := by
  have hcreate : (createBiometricPaymentSession cfg s customer merchant
      amount resp tc randSuffix).fst
      = withSessions s
          (mapSet s.appSessions sid (openRecord sid customer merchant amount tc)) := by
    unfold createBiometricPaymentSession withSessions
    simp [hauth, hbu, hsid, hsne, openRecord]
  have hgeta : mapGet (createBiometricPaymentSession cfg s customer merchant
      amount resp tc randSuffix).fst.appSessions sid
      = some (openRecord sid customer merchant amount tc) := by
    rw [hcreate]
    exact mapGet_mapSet_self _ _ _
  have hprocess : (processBiometricPayment cfg (createBiometricPaymentSession
      cfg s customer merchant amount resp tc randSuffix).fst sid bio tp).fst
      = withSessions (createBiometricPaymentSession cfg s customer merchant
            amount resp tc randSuffix).fst
          (mapSet (mapSet s.appSessions sid (openRecord sid customer merchant amount tc)) sid (completedRecord sid customer merchant amount bio tc tp)) := by
    unfold processBiometricPayment
    rw [hgeta]
    simp only [hcreate]
    unfold withSessions
    simp [openRecord, completedRecord]
  refine ⟨hgeta, ?_, hclock, ?_⟩
  · rw [hprocess]
    exact mapGet_mapSet_self _ _ _
  · intro sid2 sess2 hget hstat
    have hhas2 := mapHas_of_mapGet_some _ _ _ hget
    have hneq : (sid2 == sid) = false := by
      cases hb : (sid2 == sid) with
      | false => rfl
      | true =>
          have : sid2 = sid := by simpa using hb
          subst this
          rw [hfresh] at hhas2
          exact absurd hhas2 (by simp)
    rw [hprocess]
    show mapGet (mapSet (mapSet s.appSessions sid _) sid _) sid2 = some sess2
    rw [mapGet_mapSet_ne _ _ _ _ hneq, mapGet_mapSet_ne _ _ _ _ hneq]
    exact hget

theorem C6_session_lifecycle_witness :
    mapGet (createBiometricPaymentSession cfg0 connState "0xA" "0xB" "10"
        sidResponse 100 "r1").fst.appSessions "sess1"
      = some (openRecord "sess1" "0xA" "0xB" "10" 100)
  ∧ mapGet (processBiometricPayment cfg0 (createBiometricPaymentSession cfg0
        connState "0xA" "0xB" "10" sidResponse 100 "r1").fst "sess1" "bh"
        200).fst.appSessions "sess1"
      = some (completedRecord "sess1" "0xA" "0xB" "10" "bh" 100 200) := by
  have h := C6_session_lifecycle cfg0 connState "0xA" "0xB" "10" "sess1" "bh"
    "r1" sidResponse 100 200 rfl (by decide) (by decide) (by decide)
    (by decide) (by decide)
  exact ⟨h.1, h.2.1⟩

/-- C7: opening a session for (customer, merchant, amount) sends
allocations giving the full amount to the customer and zero to the
merchant and the service wallet; closing that session sends final
allocations giving the full stored amount to the merchant and zero to the
customer and the service wallet. -/
theorem C7_allocation_flow (cfg : Config) (s : ServiceState)
    (customer merchant amount sid bio randSuffix : String)
    (resp : CreateResponse) (tc tp : Nat)
    (hauth : s.isAuthenticated = true)
    (hbu : (resp.method == some "bu" && resp.hasParams
        && resp.hasBalanceUpdates) = false)
    (hsid : resp.firstAppSessionId = some sid)
    (hsne : (sid == "") = false) :
    ((createBiometricPaymentSession cfg s customer merchant amount resp tc
        randSuffix).snd.snd).map OpenSessionPayload.allocations
      = some [ { participant := customer, asset := "usdc", amount := amount },
          { participant := merchant, asset := "usdc", amount := "0" },
          { participant := cfg.walletAddress, asset := "usdc", amount := "0" } ]
  ∧ (processBiometricPayment cfg (createBiometricPaymentSession cfg s
        customer merchant amount resp tc randSuffix).fst sid bio tp).snd.snd
      = some (ClosePayload.mk sid
          [ { participant := customer, asset := "usdc", amount := "0" },
            { participant := merchant, asset := "usdc", amount := amount },
            { participant := cfg.walletAddress, asset := "usdc", amount := "0" } ]) := by
  have hcreate : (createBiometricPaymentSession cfg s customer merchant
      amount resp tc randSuffix).fst
      = withSessions s
          (mapSet s.appSessions sid (openRecord sid customer merchant amount tc)) := by
    unfold createBiometricPaymentSession withSessions
    simp [hauth, hbu, hsid, hsne, openRecord]
  constructor
  · unfold createBiometricPaymentSession
    simp [hauth, hbu, hsid, hsne]
  · unfold processBiometricPayment
    rw [hcreate]
    unfold withSessions
    rw [mapGet_mapSet_self]
    simp [openRecord]

theorem C7_allocation_flow_witness :
    ((createBiometricPaymentSession cfg0 connState "0xA" "0xB" "10"
        sidResponse 100 "r1").snd.snd).map OpenSessionPayload.allocations
      = some [ { participant := "0xA", asset := "usdc", amount := "10" },
          { participant := "0xB", asset := "usdc", amount := "0" },
          { participant := "0xWallet", asset := "usdc", amount := "0" } ]
  ∧ (processBiometricPayment cfg0 (createBiometricPaymentSession cfg0
        connState "0xA" "0xB" "10" sidResponse 100 "r1").fst "sess1" "bh"
        200).snd.snd
      = some (ClosePayload.mk "sess1"
          [ { participant := "0xA", asset := "usdc", amount := "0" },
            { participant := "0xB", asset := "usdc", amount := "10" },
            { participant := "0xWallet", asset := "usdc", amount := "0" } ]) :=
  C7_allocation_flow cfg0 connState "0xA" "0xB" "10" "sess1" "bh" "r1"
    sidResponse 100 200 rfl (by decide) (by decide) (by decide)

end PayWiser
